import Mathlib

/-!
# Verification of the Session Manager (authentication context)

Shallow embedding of the repository's session-lifecycle layer: the
`AuthProvider` component (state restoration effect, `login`, `logout`,
`makeAuthenticatedRequest`) together with the parallel request helper in
`src/store/actions.ts`.

The browser runtime is modelled explicitly:
* `JsVal` is the fragment of JavaScript runtime values the session layer
  manipulates (null, undefined, booleans, integers, strings and objects
  as keyed field lists); JavaScript truthiness and `a || b` are `truthy`
  and `jsOr`.
* `localStorage` is a pair of optional strings (`jwt_token` and `user`
  keys) carried inside the session state.
* The platform primitives `JSON.stringify` and `JSON.parse` are modelled
  by `jsonStringify` and `jsonParse` over the same value fragment
  (arrays and floating-point numbers do not occur in this layer).
* The network is an environment input: `login` takes the outcome of its
  `fetch` (transport error, body that fails `response.json()`, or a
  parsed status/body pair), and `makeAuthenticatedRequest` takes the
  response and returns the fetch call it would issue (URL and headers).
-/

/-- JavaScript runtime values as manipulated by the session layer. -/
inductive JsVal where
  | vnull : JsVal
  | vundefined : JsVal
  | vbool : Bool → JsVal
  | vint : Int → JsVal
  | vstr : String → JsVal
  | vobj : List (String × JsVal) → JsVal
deriving Repr

/-- JavaScript truthiness on the modelled value fragment. -/
def truthy : JsVal → Bool
  | .vnull => false
  | .vundefined => false
  | .vbool b => b
  | .vint n => n ≠ 0
  | .vstr s => s ≠ ""
  | .vobj _ => true

/-- JavaScript `a || b`. -/
def jsOr (a b : JsVal) : JsVal := if truthy a then a else b

/-- JavaScript property access `v.k`: field lookup on objects, `undefined`
otherwise (the session layer only reads properties it guards with `||`). -/
def getField : JsVal → String → JsVal
  | .vobj fields, k => (fields.lookup k).getD .vundefined
  | _, _ => .vundefined

/-- JavaScript string coercion `String(v)` (used by `localStorage.setItem`
and by template literals such as `Bearer ${token}`). -/
def jsToString : JsVal → String
  | .vnull => "null"
  | .vundefined => "undefined"
  | .vbool b => if b then "true" else "false"
  | .vint n => toString n
  | .vstr s => s
  | .vobj _ => "[object Object]"

/-- Escaping of string contents performed by `JSON.stringify`. -/
def jsonEscape (s : String) : String :=
  s.foldl (fun acc c =>
    acc ++ (if c = '"' then "\\\""
            else if c = '\\' then "\\\\"
            else if c = '\n' then "\\n"
            else String.singleton c)) ""

mutual

/-- Model of the platform primitive `JSON.stringify` on the value fragment;
`none` is JavaScript's `undefined` result, and `undefined`-valued fields of
an object are dropped. -/
def jsonStringify : JsVal → Option String
  | .vundefined => none
  | .vnull => some "null"
  | .vbool b => some (if b then "true" else "false")
  | .vint n => some (toString n)
  | .vstr s => some ("\"" ++ jsonEscape s ++ "\"")
  | .vobj fields =>
      some ("\x7b" ++ String.intercalate "," (jsonStringifyFields fields) ++ "\x7d")

/-- Serialized members of an object, in field order. -/
def jsonStringifyFields : List (String × JsVal) → List String
  | [] => []
  | (k, v) :: rest =>
      match jsonStringify v with
      | some sv => ("\"" ++ jsonEscape k ++ "\":" ++ sv) :: jsonStringifyFields rest
      | none => jsonStringifyFields rest

end

/-- Skip JSON whitespace. -/
def skipWs : List Char → List Char
  | c :: cs => if c = ' ' ∨ c = '\n' ∨ c = '\t' ∨ c = '\r' then skipWs cs else c :: cs
  | [] => []

/-- Parse the body of a JSON string literal (after the opening quote),
returning the decoded string and the input after the closing quote. -/
def parseStrBody : List Char → Option (String × List Char)
  | [] => none
  | '"' :: cs => some ("", cs)
  | '\\' :: c :: cs =>
      (match c with
        | '"' => some "\""
        | '\\' => some "\\"
        | '/' => some "/"
        | 'n' => some "\n"
        | 't' => some "\t"
        | 'r' => some "\r"
        | _ => none).bind fun esc =>
      (parseStrBody cs).map fun (rest, cs') => (esc ++ rest, cs')
  | c :: cs =>
      if c = '\\' ∨ c = '"' then none
      else (parseStrBody cs).map fun (rest, cs') => (String.singleton c ++ rest, cs')

/-- Parse a run of decimal digits into a natural number. -/
def parseDigits (acc : Nat) : List Char → Option (Nat × List Char)
  | c :: cs =>
      if c.isDigit then
        match parseDigits (acc * 10 + (c.toNat - 48)) cs with
        | some r => some r
        | none => some (acc * 10 + (c.toNat - 48), cs)
      else none
  | [] => none

mutual

/-- Fuel-indexed recursive-descent parser for a JSON value (the fragment
without arrays or fractional numbers); the top-level wrapper `jsonParse`
always supplies enough fuel. -/
def parseValue : Nat → List Char → Option (JsVal × List Char)
  | 0, _ => none
  | fuel + 1, cs =>
      match skipWs cs with
      | 'n' :: 'u' :: 'l' :: 'l' :: rest => some (.vnull, rest)
      | 't' :: 'r' :: 'u' :: 'e' :: rest => some (.vbool true, rest)
      | 'f' :: 'a' :: 'l' :: 's' :: 'e' :: rest => some (.vbool false, rest)
      | '"' :: rest => (parseStrBody rest).map fun (s, cs') => (.vstr s, cs')
      | '-' :: rest =>
          (parseDigits 0 rest).map fun (n, cs') => (.vint (-(n : Int)), cs')
      | c :: rest =>
          if c = Char.ofNat 123 then
            match skipWs rest with
            | c' :: rest' =>
                if c' = Char.ofNat 125 then some (.vobj [], rest')
                else
                  (parseMembers fuel (c' :: rest')).map fun (fs, cs') => (.vobj fs, cs')
            | [] => none
          else if c.isDigit then
            (parseDigits 0 (c :: rest)).map fun (n, cs') => (.vint (n : Int), cs')
          else none
      | [] => none

/-- Parse the members of a JSON object up to and including the closing
brace. -/
def parseMembers : Nat → List Char → Option (List (String × JsVal) × List Char)
  | 0, _ => none
  | fuel + 1, cs =>
      match skipWs cs with
      | '"' :: rest =>
          (parseStrBody rest).bind fun (k, cs₁) =>
          match skipWs cs₁ with
          | ':' :: cs₂ =>
              (parseValue fuel cs₂).bind fun (v, cs₃) =>
              match skipWs cs₃ with
              | ',' :: cs₄ =>
                  (parseMembers fuel cs₄).map fun (fs, cs₅) => ((k, v) :: fs, cs₅)
              | c :: cs₄ =>
                  if c = Char.ofNat 125 then some ([(k, v)], cs₄) else none
              | [] => none
          | _ => none
      | _ => none

end

/-- Model of the platform primitive `JSON.parse`: `none` when parsing
throws, `some v` for the parsed value. -/
def jsonParse (s : String) : Option JsVal :=
  match parseValue (s.length + 1) s.data with
  | some (v, rest) => if skipWs rest = [] then some v else none
  | none => none

/-- The Session Manager's state: the three React state cells of
`AuthProvider` (`user`, `token`, `isAuthenticated`) together with the two
`localStorage` keys (`jwt_token` and `user`; `none` means the key is
absent). `user` and `token` hold runtime values (`JsVal.vnull` is
JavaScript `null`, their initial value). -/
structure SessionState where
  user : JsVal
  token : JsVal
  isAuthenticated : Bool
  storedToken : Option String
  storedUser : Option String
deriving Repr

/-- Process start: empty in-memory session over the given storage
contents. -/
def initialSession (storedToken storedUser : Option String) : SessionState :=
  { user := .vnull, token := .vnull, isAuthenticated := false,
    storedToken := storedToken, storedUser := storedUser }

/-- The startup restoration effect of `AuthProvider` (the `useEffect`
body). `localStorage.getItem` yields `none` for an absent key; the guard
`if (savedToken && savedUser)` tests both for presence and JavaScript
string truthiness (non-emptiness). Inside the `try` block,
`setToken(savedToken)` executes before `JSON.parse(savedUser)`, so when
parsing throws the enqueued token update still applies while `setUser`
and `setIsAuthenticated` are never reached; the `catch` block removes
both storage keys. -/
def restore (s : SessionState) : SessionState :=
  match s.storedToken, s.storedUser with
  | some savedToken, some savedUser =>
      if savedToken ≠ "" ∧ savedUser ≠ "" then
        match jsonParse savedUser with
        | some v =>
            { s with token := .vstr savedToken, user := v, isAuthenticated := true }
        | none =>
            { s with token := .vstr savedToken,
                     storedToken := none, storedUser := none }
      else s
  | _, _ => s

/-- `const token = data.token || data.accessToken || data.jwt`. -/
def extractToken (data : JsVal) : JsVal :=
  jsOr (getField data "token") (jsOr (getField data "accessToken") (getField data "jwt"))

/-- `const userInfo = data.user || data.data || data`. -/
def extractUserInfo (data : JsVal) : JsVal :=
  jsOr (getField data "user") (jsOr (getField data "data") data)

/-- The `userData` object literal built by `login` from `userInfo`. -/
def normalizeUser (userInfo : JsVal) : JsVal :=
  .vobj
    [("_id", jsOr (getField userInfo "_id") (getField userInfo "id")),
     ("name", jsOr (getField userInfo "fullName")
                (jsOr (getField userInfo "name") (getField userInfo "email"))),
     ("email", getField userInfo "email"),
     ("fullName", jsOr (getField userInfo "fullName") (getField userInfo "name"))]

/-- Environment outcome of `login`'s `fetch` of `POST <base>/auth/login`:
the call throws (`netError`), resolves but `response.json()` throws
(`badJson`), or resolves with a status and a parsed JSON body. -/
inductive LoginOutcome where
  | netError : LoginOutcome
  | badJson : Nat → LoginOutcome
  | response : Nat → JsVal → LoginOutcome

/-- `Response.ok`: status in the range 200–299. -/
def respOk (status : Nat) : Bool := 200 ≤ status && status < 300

/-- `login(email, password)` of `AuthProvider`, as a function of the
current state and the environment's fetch outcome; returns the new state
and the boolean result. Both thrown-exception outcomes land in the
`catch` block, which returns `false`. On a 2xx response it extracts a
token and a user-info value, normalizes `userData`, sets all three state
cells and writes both storage keys (`setItem` coerces a non-string token
with `String(·)`). -/
def login (s : SessionState) (outcome : LoginOutcome) : SessionState × Bool :=
  match outcome with
  | .netError => (s, false)
  | .badJson _ => (s, false)
  | .response status data =>
      if respOk status then
        let token := extractToken data
        let userInfo := extractUserInfo data
        if truthy token && truthy userInfo then
          let userData := normalizeUser userInfo
          ({ s with token := token, user := userData, isAuthenticated := true,
                    storedToken := some (jsToString token),
                    storedUser := jsonStringify userData }, true)
        else (s, false)
      else (s, false)

/-- `logout()`: clears the three state cells and removes both storage
keys. -/
def logout (s : SessionState) : SessionState :=
  { s with token := .vnull, user := .vnull, isAuthenticated := false,
           storedToken := none, storedUser := none }

/-- Left-biased choice on optional strings (used to state header
precedence). -/
def orElseO (a b : Option String) : Option String :=
  match a with
  | some v => some v
  | none => b

/-- Header maps are keyed lists of string pairs (a JavaScript
`Record<string, string>` in insertion order). Lookup of a key. -/
def lookupH : List (String × String) → String → Option String
  | [], _ => none
  | (k, v) :: rest, key => if key = k then some v else lookupH rest key

/-- Keys of a header map. -/
def keysH (hs : List (String × String)) : List String := hs.map Prod.fst

/-- JavaScript property write `hs[k] = v` on a record: an existing key is
updated in place, a new key is appended. (Object spread `{...a, ...b}`
is the fold of this over `b`'s entries starting from `a`.) -/
def setHeader (hs : List (String × String)) (k v : String) : List (String × String) :=
  if (keysH hs).contains k then
    hs.map fun p => if p.1 = k then (k, v) else p
  else hs ++ [(k, v)]

/-- The header object built by `makeAuthenticatedRequest`: the literal
`{ 'Content-Type': 'application/json', ...options.headers }`, then
`headers['Authorization'] = `Bearer ${token}`` when `token` is truthy. -/
def buildHeaders (token : JsVal) (callerHeaders : List (String × String)) :
    List (String × String) :=
  let hs := callerHeaders.foldl (fun acc kv => setHeader acc kv.1 kv.2)
    [("Content-Type", "application/json")]
  if truthy token then setHeader hs "Authorization" ("Bearer " ++ jsToString token)
  else hs

/-- Model of JavaScript `s.startsWith(pre)` (over the character list, so
that it computes by kernel reduction). -/
def jsStartsWith (s pre : String) : Bool := pre.data.isPrefixOf s.data

/-- Model of JavaScript `s.slice(n)`: drop the first `n` characters. -/
def jsSlice (s : String) (n : Nat) : String := ⟨s.data.drop n⟩

/-- URL resolution of `AuthProvider.makeAuthenticatedRequest` (line 132):
`url.startsWith('http') ? url : API_BASE_URL + (url.startsWith('/') ?
url.slice(4) : '/' + url)`. -/
def resolveUrl (apiBase url : String) : String :=
  if jsStartsWith url "http" then url
  else apiBase ++ (if jsStartsWith url "/" then jsSlice url 4 else "/" ++ url)

/-- URL resolution of the request helper in `src/store/actions.ts`
(line 51): `url.startsWith('http') ? url : API_BASE_URL +
(url.startsWith('/') ? url : '/' + url)`. -/
def resolveUrlActions (apiBase url : String) : String :=
  if jsStartsWith url "http" then url
  else apiBase ++ (if jsStartsWith url "/" then url else "/" ++ url)

/-- An HTTP response as the session layer observes it: a status code and
a body value. -/
structure Response where
  status : Nat
  body : JsVal
deriving Repr

/-- The outbound network call `makeAuthenticatedRequest` hands to
`fetch`: resolved URL and merged headers. -/
structure FetchCall where
  url : String
  headers : List (String × String)
deriving Repr

/-- `makeAuthenticatedRequest(url, options)` of `AuthProvider`, as a
function of the base URL, the current state, the caller's URL and
headers, and the environment's response. Returns the fetch call it
issues, the state after the call, and the value returned to the caller:
the response is returned unchanged, and `logout()` runs first exactly
when `response.status === 401`. -/
def makeAuthenticatedRequest (apiBase : String) (s : SessionState) (url : String)
    (callerHeaders : List (String × String)) (resp : Response) :
    FetchCall × SessionState × Response :=
  (⟨resolveUrl apiBase url, buildHeaders s.token callerHeaders⟩,
   if resp.status = 401 then logout s else s,
   resp)

/-! ## Helper lemmas -/

theorem truthy_jsOr (a b : JsVal) : truthy (jsOr a b) = (truthy a || truthy b) := by
  unfold jsOr
  cases h : truthy a <;> simp [h]

theorem truthy_of_getField (v : JsVal) (k : String)
    (h : truthy (getField v k) = true) : truthy v = true := by
  cases v <;> first | rfl | simp [getField, truthy] at h

theorem extractUserInfo_truthy (data : JsVal)
    (h : truthy (extractToken data) = true) :
    truthy (extractUserInfo data) = true := by
  have hd : truthy data = true := by
    unfold extractToken at h
    rw [truthy_jsOr, truthy_jsOr] at h
    simp only [Bool.or_eq_true] at h
    rcases h with h | h | h <;> exact truthy_of_getField _ _ h
  unfold extractUserInfo
  rw [truthy_jsOr, truthy_jsOr, hd]
  simp

theorem orElseO_none_right (a : Option String) : orElseO a none = a := by
  cases a <;> rfl

theorem orElseO_assoc (a b c : Option String) :
    orElseO (orElseO a b) c = orElseO a (orElseO b c) := by
  cases a <;> rfl

theorem lookupH_append (hs₁ hs₂ : List (String × String)) (k : String) :
    lookupH (hs₁ ++ hs₂) k = orElseO (lookupH hs₁ k) (lookupH hs₂ k) := by
  induction hs₁ with
  | nil => rfl
  | cons p rest ih =>
      obtain ⟨a, b⟩ := p
      by_cases hk : k = a
      · simp [lookupH, hk, orElseO]
      · simp [lookupH, hk, ih]

theorem lookupH_eq_none (hs : List (String × String)) (k : String)
    (h : k ∉ keysH hs) : lookupH hs k = none := by
  induction hs with
  | nil => rfl
  | cons p rest ih =>
      obtain ⟨a, b⟩ := p
      have h1 : ¬ k = a := fun hk => h (by simp [keysH, hk])
      have h2 : k ∉ keysH rest := fun hk => h (by simp [keysH] at hk ⊢; exact Or.inr hk)
      simp [lookupH, h1, ih h2]

theorem lookupH_isSome_of_mem (hs : List (String × String)) (k : String)
    (h : k ∈ keysH hs) : (lookupH hs k).isSome = true := by
  induction hs with
  | nil => simp [keysH] at h
  | cons p rest ih =>
      obtain ⟨a, b⟩ := p
      by_cases hk : k = a
      · simp [lookupH, hk]
      · have h2 : k ∈ keysH rest := by
          simp [keysH] at h
          rcases h with h | h
          · exact absurd h hk
          · simpa [keysH] using h
        simp [lookupH, hk, ih h2]

theorem lookupH_mapSet (hs : List (String × String)) (k' v k : String) :
    lookupH (hs.map fun p => if p.1 = k' then (k', v) else p) k =
      if k = k' then (lookupH hs k').map (fun _ => v) else lookupH hs k := by
  induction hs with
  | nil => simp [lookupH]
  | cons p rest ih =>
      obtain ⟨a, b⟩ := p
      simp only [List.map_cons]
      dsimp only
      by_cases ha : a = k'
      · rw [if_pos ha]
        by_cases hk : k = k'
        · simp [lookupH, hk, ha.symm]
        · have hka : ¬ k = a := fun h => hk (h.trans ha)
          simp [lookupH, hk, hka, ih]
      · rw [if_neg ha]
        have hak : ¬ k' = a := fun h => ha h.symm
        by_cases hk : k = a
        · have hkk : ¬ k = k' := by rw [hk]; exact ha
          simp [lookupH, hk, hkk, ha, hak]
        · simp [lookupH, hk, ih, hak]

theorem lookupH_setHeader (hs : List (String × String)) (k' v k : String) :
    lookupH (setHeader hs k' v) k = if k = k' then some v else lookupH hs k := by
  unfold setHeader
  by_cases hm : k' ∈ keysH hs
  · rw [if_pos (List.elem_iff.mpr hm), lookupH_mapSet]
    obtain ⟨w, hw⟩ := Option.isSome_iff_exists.mp (lookupH_isSome_of_mem hs k' hm)
    rw [hw]
    rfl
  · rw [if_neg (fun hc => hm (List.elem_iff.mp hc)), lookupH_append]
    have hnone : lookupH hs k' = none := lookupH_eq_none hs k' hm
    by_cases hk : k = k'
    · subst hk
      simp [hnone, orElseO, lookupH]
    · simp [lookupH, hk, orElseO_none_right]

theorem lookupH_foldlSet (caller : List (String × String))
    (init : List (String × String)) (k : String) :
    lookupH (caller.foldl (fun acc kv => setHeader acc kv.1 kv.2) init) k =
      orElseO (lookupH caller.reverse k) (lookupH init k) := by
  induction caller generalizing init with
  | nil => rfl
  | cons p rest ih =>
      obtain ⟨a, b⟩ := p
      simp only [List.foldl_cons, List.reverse_cons]
      rw [ih, lookupH_append, orElseO_assoc, lookupH_setHeader]
      congr 1
      by_cases hk : k = a <;> simp [lookupH, hk, orElseO]

theorem lookupH_reverse_of_nodup (caller : List (String × String)) (k : String)
    (h : (keysH caller).Nodup) :
    lookupH caller.reverse k = lookupH caller k := by
  induction caller with
  | nil => rfl
  | cons p rest ih =>
      obtain ⟨a, b⟩ := p
      have hmem : a ∉ keysH rest := (List.nodup_cons.mp h).1
      have htail : (keysH rest).Nodup := (List.nodup_cons.mp h).2
      rw [List.reverse_cons, lookupH_append, ih htail]
      by_cases hk : k = a
      · subst hk
        have hnone : lookupH rest k = none := lookupH_eq_none rest k hmem
        simp [hnone, orElseO, lookupH]
      · simp [lookupH, hk, orElseO_none_right]

theorem login_success_shape (s : SessionState) (status : Nat) (data : JsVal)
    (hok : respOk status = true) (htok : truthy (extractToken data) = true) :
    login s (.response status data) =
      ({ s with token := extractToken data,
                user := normalizeUser (extractUserInfo data),
                isAuthenticated := true,
                storedToken := some (jsToString (extractToken data)),
                storedUser := jsonStringify (normalizeUser (extractUserInfo data)) },
       true) := by
  have hui := extractUserInfo_truthy data htok
  simp [login, hok, htok, hui]

/-! ## Claim theorems -/

/-- C1: the claimed invariant fails on the code. Starting from persisted
`jwt_token = "t1"` and `user = "null"`, `JSON.parse` yields JavaScript
`null`, yet restoration still runs `setIsAuthenticated(true)`: the
reachable state is authenticated while holding a non-empty token and no
user record, so `authenticated` is not equivalent to both being held
(and on unparsable data the token is set without the user record). -/
theorem restore_breaks_auth_invariant :
    (restore (initialSession (some "t1") (some "null"))).isAuthenticated = true ∧
    (restore (initialSession (some "t1") (some "null"))).user = JsVal.vnull ∧
    truthy (restore (initialSession (some "t1") (some "null"))).token = true :=
  ⟨rfl, rfl, rfl⟩

/-- C2: every completed call of the request primitive returns the original
response object, and the session transitions to the fully cleared state
(token and user cleared, flag false, both storage keys removed) exactly
when the response status is 401, being left unchanged on every other
status. -/
theorem request_unauthorized_contract (apiBase : String) (s : SessionState)
    (url : String) (hdrs : List (String × String)) (resp : Response) :
    (makeAuthenticatedRequest apiBase s url hdrs resp).2.2 = resp ∧
    (makeAuthenticatedRequest apiBase s url hdrs resp).2.1 =
      (if resp.status = 401 then
         { user := JsVal.vnull, token := JsVal.vnull, isAuthenticated := false,
           storedToken := none, storedUser := none }
       else s) :=
  ⟨rfl, rfl⟩

/-- C3: at the failing input (persisted token `"t1"`, persisted user
`"x"`, which does not parse), restoration removes both storage keys but
leaves the in-memory token set to `"t1"` — the token update is enqueued
before `JSON.parse` throws — so the in-memory session is not left
entirely empty as the claim requires. -/
theorem restore_parse_failure_keeps_token :
    restore (initialSession (some "t1") (some "x")) =
      { user := JsVal.vnull, token := JsVal.vstr "t1", isAuthenticated := false,
        storedToken := none, storedUser := none } ∧
    JsVal.vstr "t1" ≠ JsVal.vnull :=
  ⟨rfl, fun h => JsVal.noConfusion h⟩

/-- C4: on a transport failure, on a body that fails `response.json()`,
and on any non-2xx status, `login` returns `false` (it never raises) and
leaves the entire session state — in-memory cells and both storage keys —
exactly as it was. -/
theorem login_failure_frame (s : SessionState) (status : Nat) (data : JsVal) :
    login s .netError = (s, false) ∧
    login s (.badJson status) = (s, false) ∧
    (respOk status = false → login s (.response status data) = (s, false)) := by
  refine ⟨rfl, rfl, fun h => ?_⟩
  simp [login, h]

/-- Witness for C4 at status 400. -/
theorem login_failure_frame_witness :
    respOk 400 = false ∧
    login (initialSession none none)
        (.response 400 (.vobj [("message", .vstr "Invalid credentials")])) =
      (initialSession none none, false) :=
  ⟨rfl,
   (login_failure_frame (initialSession none none) 400
      (.vobj [("message", .vstr "Invalid credentials")])).2.2 rfl⟩

/-- C5 counterexample: a 2xx response holding a token but no recognizable
user identity (`{"token": "t1"}`) makes `login` return `true` and mutate
the session (the `userInfo` fallback `data.user || data.data || data` is
never falsy once a token is present), contradicting the claim that such
a login fails without mutation. -/
theorem login_token_without_identity :
    (login (initialSession none none)
        (.response 200 (.vobj [("token", .vstr "t1")]))).2 = true ∧
    (login (initialSession none none)
        (.response 200 (.vobj [("token", .vstr "t1")]))).1.isAuthenticated = true :=
  ⟨rfl, rfl⟩

/-- C5 amended: on a 2xx response whose body yields no token under any of
the accepted field names, `login` returns `false` and performs no
mutation; but whenever a token is extracted, the user-info container
(falling back to the whole body) is necessarily truthy, so `login`
succeeds and mutates state even without a recognizable user identity. -/
theorem login_missing_token_frame (s : SessionState) (status : Nat) (data : JsVal)
    (hok : respOk status = true) :
    (truthy (extractToken data) = false →
      login s (.response status data) = (s, false)) ∧
    (truthy (extractToken data) = true →
      (login s (.response status data)).2 = true ∧
      (login s (.response status data)).1.isAuthenticated = true) := by
  constructor
  · intro h
    simp [login, hok, h]
  · intro h
    rw [login_success_shape s status data hok h]
    exact ⟨rfl, rfl⟩

/-- Witness for C5 (amended) at a 2xx response with no token field. -/
theorem login_missing_token_frame_witness :
    respOk 200 = true ∧
    login (initialSession none none) (.response 200 (.vobj [("ok", .vbool true)])) =
      (initialSession none none, false) :=
  ⟨rfl,
   (login_missing_token_frame (initialSession none none) 200
      (.vobj [("ok", .vbool true)]) rfl).1 rfl⟩

/-- C6 counterexample: with a held token `"t1"` and a caller-supplied
`Authorization: custom` header, the request primitive sends
`Authorization: Bearer t1` — the assignment `headers['Authorization']`
runs after the caller spread, so the caller value does not win on this
header, contradicting the claim. -/
theorem request_caller_authorization_overridden :
    lookupH ((makeAuthenticatedRequest "http://localhost:5001/api"
        { user := JsVal.vobj [], token := JsVal.vstr "t1", isAuthenticated := true,
          storedToken := some "t1", storedUser := some "u" }
        "/products" [("Authorization", "custom")] ⟨200, .vobj []⟩).1.headers)
      "Authorization" = some "Bearer t1" ∧
    ¬ lookupH ((makeAuthenticatedRequest "http://localhost:5001/api"
        { user := JsVal.vobj [], token := JsVal.vstr "t1", isAuthenticated := true,
          storedToken := some "t1", storedUser := some "u" }
        "/products" [("Authorization", "custom")] ⟨200, .vobj []⟩).1.headers)
      "Authorization" = some "custom" := by
  decide

/-- C6 amended: the sent headers are the merge of the fixed
`Content-Type: application/json` default, the caller-supplied headers
(which win over the default on conflict), and — overriding everything,
including any caller value — `Authorization: Bearer <token>` exactly when
a token is held. -/
theorem buildHeaders_merge (token : JsVal) (caller : List (String × String))
    (k : String) (hnd : (keysH caller).Nodup) :
    lookupH (buildHeaders token caller) k =
      (if truthy token = true ∧ k = "Authorization" then
         some ("Bearer " ++ jsToString token)
       else
         orElseO (lookupH caller k)
           (if k = "Content-Type" then some "application/json" else none)) := by
  unfold buildHeaders
  by_cases ht : truthy token = true
  · rw [if_pos ht, lookupH_setHeader, lookupH_foldlSet,
        lookupH_reverse_of_nodup caller k hnd]
    by_cases hk : k = "Authorization"
    · simp [hk, ht]
    · simp [hk, ht, lookupH]
  · rw [if_neg ht, lookupH_foldlSet, lookupH_reverse_of_nodup caller k hnd]
    simp [ht, lookupH]

/-- Witness for C6 (amended): a custom caller header and a caller
`Content-Type` both survive, and `Authorization` carries the held
token. -/
theorem buildHeaders_merge_witness :
    (keysH [("X-Custom", "1"), ("Content-Type", "text/plain")]).Nodup ∧
    lookupH (buildHeaders (.vstr "t1")
        [("X-Custom", "1"), ("Content-Type", "text/plain")]) "X-Custom" = some "1" ∧
    lookupH (buildHeaders (.vstr "t1")
        [("X-Custom", "1"), ("Content-Type", "text/plain")]) "Content-Type" =
      some "text/plain" ∧
    lookupH (buildHeaders (.vstr "t1")
        [("X-Custom", "1"), ("Content-Type", "text/plain")]) "Authorization" =
      some "Bearer t1" :=
  ⟨by decide,
   (buildHeaders_merge (.vstr "t1") [("X-Custom", "1"), ("Content-Type", "text/plain")]
      "X-Custom" (by decide)).trans (by decide),
   (buildHeaders_merge (.vstr "t1") [("X-Custom", "1"), ("Content-Type", "text/plain")]
      "Content-Type" (by decide)).trans (by decide),
   (buildHeaders_merge (.vstr "t1") [("X-Custom", "1"), ("Content-Type", "text/plain")]
      "Authorization" (by decide)).trans (by decide)⟩

/-- C7: at the failing input (`"/products"` against the development base
URL), the Session Manager's resolver drops the first four characters of
the path, so the slashed and unslashed forms of the same path resolve to
different absolute URLs; absolute URLs do pass through unchanged, and the
sibling resolver in `src/store/actions.ts` satisfies the claimed
equality. -/
theorem resolveUrl_slash_divergence :
    resolveUrl "http://localhost:5001/api" "/products" =
      "http://localhost:5001/apiducts" ∧
    resolveUrl "http://localhost:5001/api" "products" =
      "http://localhost:5001/api/products" ∧
    resolveUrl "http://localhost:5001/api" "/products" ≠
      resolveUrl "http://localhost:5001/api" "products" ∧
    resolveUrl "http://localhost:5001/api" "https://other.example/x" =
      "https://other.example/x" ∧
    resolveUrlActions "http://localhost:5001/api" "/products" =
      resolveUrlActions "http://localhost:5001/api" "products" :=
  ⟨rfl, rfl, by decide, rfl, rfl⟩

/-- C8 counterexample: a 2xx response whose user record carries a present
but empty `fullName` (`""`) together with `name = "Bob"` is normalized to
display name `"Bob"`, not the present `fullName` field, contradicting the
claim that a present full-name field is always preferred. -/
theorem login_empty_fullname_counterexample :
    getField (getField (JsVal.vobj
        [("token", .vstr "t2"),
         ("user", .vobj [("fullName", .vstr ""), ("name", .vstr "Bob"),
                         ("email", .vstr "b@x.com"), ("_id", .vstr "u1")])]) "user")
      "fullName" = JsVal.vstr "" ∧
    getField (login (initialSession none none)
        (.response 200 (JsVal.vobj
          [("token", .vstr "t2"),
           ("user", .vobj [("fullName", .vstr ""), ("name", .vstr "Bob"),
                           ("email", .vstr "b@x.com"), ("_id", .vstr "u1")])]))).1.user
      "name" = JsVal.vstr "Bob" ∧
    JsVal.vstr "Bob" ≠ JsVal.vstr "" := by
  refine ⟨rfl, rfl, fun h => ?_⟩
  injection h with h'
  exact absurd h' (by decide)

/-- C8 amended: on a 2xx response from which a token is extracted, the
stored record's display name is the user-info's `fullName` when truthy
(present and non-empty), else its `name` when truthy, else its `email`;
and the session token is the first truthy field among `token`,
`accessToken`, `jwt`. -/
theorem login_name_normalization (s : SessionState) (status : Nat) (data : JsVal)
    (hok : respOk status = true) (htok : truthy (extractToken data) = true) :
    getField (login s (.response status data)).1.user "name" =
      (if truthy (getField (extractUserInfo data) "fullName") = true then
         getField (extractUserInfo data) "fullName"
       else if truthy (getField (extractUserInfo data) "name") = true then
         getField (extractUserInfo data) "name"
       else getField (extractUserInfo data) "email") ∧
    (login s (.response status data)).1.token =
      (if truthy (getField data "token") = true then getField data "token"
       else if truthy (getField data "accessToken") = true then
         getField data "accessToken"
       else getField data "jwt") := by
  rw [login_success_shape s status data hok htok]
  exact ⟨rfl, rfl⟩

/-- Witness for C8 (amended) at the stub response of the spec's test
catalogue. -/
theorem login_name_normalization_witness :
    respOk 200 = true ∧
    truthy (extractToken (JsVal.vobj
      [("token", .vstr "t1"),
       ("user", .vobj [("_id", .vstr "u1"), ("email", .vstr "a@b.com")])])) = true ∧
    getField (login (initialSession none none)
        (.response 200 (JsVal.vobj
          [("token", .vstr "t1"),
           ("user", .vobj [("_id", .vstr "u1"),
                           ("email", .vstr "a@b.com")])]))).1.user "name" =
      JsVal.vstr "a@b.com" :=
  ⟨rfl, rfl,
   ((login_name_normalization (initialSession none none) 200
      (JsVal.vobj
        [("token", .vstr "t1"),
         ("user", .vobj [("_id", .vstr "u1"), ("email", .vstr "a@b.com")])])
      rfl rfl).1).trans rfl⟩

/-- C9: `logout` is idempotent — a second call is a no-op — and the state
it produces has the token and user cleared, the flag false, and both
persisted keys absent. -/
theorem logout_idempotent_cleared (s : SessionState) :
    logout (logout s) = logout s ∧
    (logout s).token = JsVal.vnull ∧
    (logout s).user = JsVal.vnull ∧
    (logout s).isAuthenticated = false ∧
    (logout s).storedToken = none ∧
    (logout s).storedUser = none :=
  ⟨rfl, rfl, rfl, rfl, rfl, rfl⟩

/-- C10: when exactly one of the two persisted keys is present at
startup, restoration is the identity — the lone stale key stays in
storage, no in-memory cell changes, and the startup session is empty and
unauthenticated. -/
theorem restore_lone_persisted_key (t u : String) :
    restore (initialSession (some t) none) = initialSession (some t) none ∧
    restore (initialSession none (some u)) = initialSession none (some u) ∧
    (initialSession (some t) none).token = JsVal.vnull ∧
    (initialSession (some t) none).user = JsVal.vnull ∧
    (initialSession (some t) none).isAuthenticated = false :=
  ⟨rfl, rfl, rfl, rfl, rfl⟩
